import Mathlib

/-!
Razer2Artemis: the Razer Chroma SDK shim (`Artemis/Razer2Artemis/main.cpp`)

A shallow embedding of the shim library: its two globals, the loader hook
`DllMain`, the thirteen exported functions, and the calls they make to the
external logger `CLogger` and to the C runtime (`atexit`), recorded as a trace.
-/

namespace Razer2Artemis

/-! ## Vendor and platform types (declared in `main.h` / `Windows.h`) -/

/-- Result code of the vendor interface (`RZRESULT`, a signed machine integer). -/
abbrev RZRESULT := Int

/-- Addresses in the host process; `0` is the null pointer. -/
abbrev Addr := Nat

/-- Device identifier (`RZDEVICEID`), an uninterpreted number. -/
abbrev RZDEVICEID := Nat

/-- Effect-type enumerators of the vendor interface, uninterpreted. -/
abbrev EFFECT_TYPE := Nat

/-- Opaque parameter block pointer (`PRZPARAM`). -/
abbrev PRZPARAM := Addr

/-- Window handle (`HWND`). -/
abbrev HWND := Nat

/-- Module handle (`HINSTANCE`). -/
abbrev HINSTANCE := Nat

/-- Unsigned 32-bit loader reason code (`DWORD`). -/
abbrev DWORD := Nat

/-- Loader reason `DLL_PROCESS_ATTACH` of `Windows.h`. -/
def DLL_PROCESS_ATTACH : DWORD := 1

/-- Loader reason `DLL_PROCESS_DETACH` of `Windows.h`. -/
def DLL_PROCESS_DETACH : DWORD := 0

/-- Severity levels of `Logger.h`. The source only ever names `Debug`; every
other level of the enumeration is represented by its number. -/
inductive LogLevel where
  | Debug
  | Other (n : Nat)
  deriving DecidableEq, Repr

/-- One call made to the external logger class `CLogger`. -/
inductive LoggerCall where
  | InitLogging (file : String)
  | SetLogLevel (level : LogLevel)
  | OutputLog (fmt : String) (level : LogLevel)
  | OutputLog_s (msg : String) (level : LogLevel)
  | EndLogging
  deriving DecidableEq, Repr

/-- Functions of this library that can be handed to `atexit`. -/
inductive ExitFn where
  | cleanup
  deriving DecidableEq, Repr

/-- The process as seen by the shim: its two globals, the memory of the host
process (caller-owned output locations live here), the table of functions
registered with `atexit`, and the trace of logger calls in chronological order. -/
structure World where
  g_hasInitialised : Bool
  game : String
  memory : Addr → Option Nat
  atexitTable : List ExitFn
  trace : List LoggerCall

/-- State at library load: `g_hasInitialised = false`, `game = ""`, nothing
registered, nothing logged; `mem` is the host memory at that time. -/
def initialWorld (mem : Addr → Option Nat) : World :=
  { g_hasInitialised := false, game := "", memory := mem, atexitTable := [], trace := [] }

/-- Host memory in which nothing is mapped. -/
def emptyMemory : Addr → Option Nat := fun _ => none

/-- Record one call to the logger. -/
def World.log (w : World) (c : LoggerCall) : World :=
  { w with trace := w.trace ++ [c] }

/-- C-string comparison (`_tcscmp`) on character buffers: the end of the list
stands for the terminating NUL, and a NUL inside a buffer ends the string. The
result is negative, zero or positive. -/
def _tcscmp : List Char → List Char → Int
  | [], [] => 0
  | [], b :: _ => if b.toNat = 0 then 0 else -1
  | a :: _, [] => if a.toNat = 0 then 0 else 1
  | a :: as, b :: bs =>
    if a.toNat < b.toNat then -1
    else if b.toNat < a.toNat then 1
    else if a.toNat = 0 then 0
    else _tcscmp as bs

/-- Body of `cleanup()`: `CLogger::EndLogging();`. -/
def cleanup (w : World) : World :=
  w.log .EndLogging

/-- Run one registered exit function. -/
def ExitFn.run : ExitFn → World → World
  | .cleanup, w => Razer2Artemis.cleanup w

/-- The loader hook `DllMain(hInst, fdwReason, lpReserved)`. `szPath` is what
`GetModuleFileName(NULL, szPath, MAX_PATH)` leaves in the path buffer. -/
def DllMain (_hInst : HINSTANCE) (fdwReason : DWORD) (_lpReserved : Addr)
    (szPath : String) (w : World) : Bool × World :=
  if fdwReason = DLL_PROCESS_ATTACH then
    let w := { w with atexitTable := w.atexitTable ++ [ExitFn.cleanup] }
    let w := w.log (.InitLogging "Log.txt")
    let w := w.log (.SetLogLevel .Debug)
    let overwatchFind := "Overwatch"
    let w := if _tcscmp szPath.toList overwatchFind.toList ≠ 0 then
      { w with game := "overwatch" } else w
    let w := w.log (.OutputLog "Attached to process." .Debug)
    (true, w)
  else if fdwReason = DLL_PROCESS_DETACH then
    let w := cleanup w
    let w := w.log (.OutputLog_s "Detached from process." .Debug)
    (true, w)
  else
    (true, w)

/-- Process exit as performed by the C runtime: the functions registered with
`atexit` run in reverse order of registration. -/
def processExit (w : World) : World :=
  w.atexitTable.reverse.foldl (fun acc f => f.run acc) w

/-! ## The exported entry points -/

def Init (w : World) : RZRESULT × World :=
  let w := w.log (.OutputLog_s "Razer Init called." .Debug)
  let w := { w with g_hasInitialised := true }
  (0, w)

def UnInit (w : World) : RZRESULT × World :=
  let w := w.log (.OutputLog_s "Razer UnInit called." .Debug)
  (0, w)

def CreateEffect (_DeviceId : RZDEVICEID) (_Effect : EFFECT_TYPE) (_pParam : PRZPARAM)
    (_pEffectId : Addr) (w : World) : RZRESULT × World :=
  let w := w.log (.OutputLog_s "Razer CreateEffect called." .Debug)
  (0, w)

def CreateKeyboardEffect (_Effect : EFFECT_TYPE) (_pParam : PRZPARAM)
    (_pEffectId : Addr) (w : World) : RZRESULT × World :=
  let w := w.log (.OutputLog_s "Razer CreateKeyboardEffect called." .Debug)
  (0, w)

def CreateMouseEffect (_Effect : EFFECT_TYPE) (_pParam : PRZPARAM)
    (_pEffectId : Addr) (w : World) : RZRESULT × World :=
  let w := w.log (.OutputLog_s "Razer CreateMouseEffect called." .Debug)
  (0, w)

def CreateHeadsetEffect (_Effect : EFFECT_TYPE) (_pParam : PRZPARAM)
    (_pEffectId : Addr) (w : World) : RZRESULT × World :=
  let w := w.log (.OutputLog_s "Razer CreateHeadsetEffect called." .Debug)
  (0, w)

def CreateMousepadEffect (_Effect : EFFECT_TYPE) (_pParam : PRZPARAM)
    (_pEffectId : Addr) (w : World) : RZRESULT × World :=
  let w := w.log (.OutputLog_s "Razer CreateMousepadEffect called." .Debug)
  (0, w)

def CreateKeypadEffect (_Effect : EFFECT_TYPE) (_pParam : PRZPARAM)
    (_pEffectId : Addr) (w : World) : RZRESULT × World :=
  let w := w.log (.OutputLog_s "Razer CreateKeypadEffect called." .Debug)
  (0, w)

def DeleteEffect (_EffectId : Nat) (w : World) : RZRESULT × World :=
  let w := w.log (.OutputLog_s "Razer DeleteEffect called." .Debug)
  (0, w)

def SetEffect (_EffectId : Nat) (w : World) : RZRESULT × World :=
  let w := w.log (.OutputLog_s "Razer SetEffect called." .Debug)
  (0, w)

def RegisterEventNotification (_hWnd : HWND) (w : World) : RZRESULT × World :=
  let w := w.log (.OutputLog_s "Razer RegisterEventNotification called." .Debug)
  (0, w)

def UnregisterEventNotification (w : World) : RZRESULT × World :=
  let w := w.log (.OutputLog_s "Razer UnregisterEventNotification called." .Debug)
  (0, w)

def QueryDevice (_DeviceId : RZDEVICEID) (_DeviceInfo : Addr) (w : World) : RZRESULT × World :=
  let w := w.log (.OutputLog_s "Razer QueryDevice called." .Debug)
  (0, w)

/-! ## The host's view: calls and loader events -/

/-- A call of one exported function by the host, with its arguments. Pointer
and reference arguments are addresses in the host memory. -/
inductive Call where
  | Init
  | UnInit
  | CreateEffect (DeviceId : RZDEVICEID) (Effect : EFFECT_TYPE) (pParam : PRZPARAM) (pEffectId : Addr)
  | CreateKeyboardEffect (Effect : EFFECT_TYPE) (pParam : PRZPARAM) (pEffectId : Addr)
  | CreateMouseEffect (Effect : EFFECT_TYPE) (pParam : PRZPARAM) (pEffectId : Addr)
  | CreateHeadsetEffect (Effect : EFFECT_TYPE) (pParam : PRZPARAM) (pEffectId : Addr)
  | CreateMousepadEffect (Effect : EFFECT_TYPE) (pParam : PRZPARAM) (pEffectId : Addr)
  | CreateKeypadEffect (Effect : EFFECT_TYPE) (pParam : PRZPARAM) (pEffectId : Addr)
  | DeleteEffect (EffectId : Nat)
  | SetEffect (EffectId : Nat)
  | RegisterEventNotification (hWnd : HWND)
  | UnregisterEventNotification
  | QueryDevice (DeviceId : RZDEVICEID) (DeviceInfo : Addr)
  deriving DecidableEq, Repr

/-- Exported symbol that a call goes to. -/
def Call.name : Call → String
  | .Init => "Init"
  | .UnInit => "UnInit"
  | .CreateEffect .. => "CreateEffect"
  | .CreateKeyboardEffect .. => "CreateKeyboardEffect"
  | .CreateMouseEffect .. => "CreateMouseEffect"
  | .CreateHeadsetEffect .. => "CreateHeadsetEffect"
  | .CreateMousepadEffect .. => "CreateMousepadEffect"
  | .CreateKeypadEffect .. => "CreateKeypadEffect"
  | .DeleteEffect .. => "DeleteEffect"
  | .SetEffect .. => "SetEffect"
  | .RegisterEventNotification .. => "RegisterEventNotification"
  | .UnregisterEventNotification => "UnregisterEventNotification"
  | .QueryDevice .. => "QueryDevice"

/-- Dispatch of a call to the exported function it names. -/
def Call.exec : Call → World → RZRESULT × World
  | .Init, w => Razer2Artemis.Init w
  | .UnInit, w => Razer2Artemis.UnInit w
  | .CreateEffect d e p i, w => Razer2Artemis.CreateEffect d e p i w
  | .CreateKeyboardEffect e p i, w => Razer2Artemis.CreateKeyboardEffect e p i w
  | .CreateMouseEffect e p i, w => Razer2Artemis.CreateMouseEffect e p i w
  | .CreateHeadsetEffect e p i, w => Razer2Artemis.CreateHeadsetEffect e p i w
  | .CreateMousepadEffect e p i, w => Razer2Artemis.CreateMousepadEffect e p i w
  | .CreateKeypadEffect e p i, w => Razer2Artemis.CreateKeypadEffect e p i w
  | .DeleteEffect i, w => Razer2Artemis.DeleteEffect i w
  | .SetEffect i, w => Razer2Artemis.SetEffect i w
  | .RegisterEventNotification h, w => Razer2Artemis.RegisterEventNotification h w
  | .UnregisterEventNotification, w => Razer2Artemis.UnregisterEventNotification w
  | .QueryDevice d i, w => Razer2Artemis.QueryDevice d i w

/-- Something that happens to the loaded library: the host calls an export, or
the loader runs `DllMain` with some reason code. -/
inductive Event where
  | call (c : Call)
  | loader (hInst : HINSTANCE) (fdwReason : DWORD) (lpReserved : Addr) (szPath : String)

/-- State after one event. -/
def Event.step : Event → World → World
  | .call c, w => (c.exec w).2
  | .loader h r l p, w => (DllMain h r l p w).2

/-- State after a finite sequence of events, first event first. -/
def runEvents (es : List Event) (w : World) : World :=
  es.foldl (fun acc e => e.step acc) w

/-- State after a finite sequence of entry-point calls, first call first. -/
def runCalls (cs : List Call) (w : World) : World :=
  cs.foldl (fun acc c => (c.exec acc).2) w

/-- The log-output requests (`OutputLog` and `OutputLog_s`) in a trace, in order,
each with its text and severity. -/
def logOutputRequests : List LoggerCall → List (String × LogLevel)
  | [] => []
  | .OutputLog m l :: cs => (m, l) :: logOutputRequests cs
  | .OutputLog_s m l :: cs => (m, l) :: logOutputRequests cs
  | _ :: cs => logOutputRequests cs

/-- Logger calls made since a trace of length `n` was observed. -/
def World.tracedSince (w : World) (n : Nat) : List LoggerCall :=
  w.trace.drop n

/-- Number of times the cleanup action's `CLogger::EndLogging` has been invoked. -/
def World.endLoggingCount (w : World) : Nat :=
  w.trace.count .EndLogging

/-- Log record that the exported function named by a call is expected to request:
`"Razer <Name> called."` at `Debug` severity through `OutputLog_s`. -/
def Call.record (c : Call) : LoggerCall :=
  .OutputLog_s ("Razer " ++ c.name ++ " called.") .Debug

/-- The text of the detach hook's diagnostic line, as a logger call. -/
def detachLine : LoggerCall :=
  .OutputLog_s "Detached from process." .Debug

/-- Ordering stated for the detach hook, over the logger calls the hook makes:
the detach line occurs, `EndLogging` occurs, and the line comes first. -/
def lineThenCleanup (t : List LoggerCall) : Prop :=
  detachLine ∈ t ∧ LoggerCall.EndLogging ∈ t ∧
    t.indexOf detachLine < t.indexOf LoggerCall.EndLogging

instance (t : List LoggerCall) : Decidable (lineThenCleanup t) := by
  unfold lineThenCleanup; infer_instance

/-! ## Basic facts about the embedding -/

/-- Every exported function appends its own record and, for `Init`, sets the
flag; nothing else in the world changes. -/
lemma exec_world (c : Call) (w : World) :
    (c.exec w).2 =
      { w with
        trace := w.trace ++ [c.record]
        g_hasInitialised := match c with
          | .Init => true
          | _ => w.g_hasInitialised } := by
  cases c <;> rfl

lemma exec_trace (c : Call) (w : World) :
    (c.exec w).2.trace = w.trace ++ [c.record] := by
  rw [exec_world]

lemma exec_atexitTable (c : Call) (w : World) :
    (c.exec w).2.atexitTable = w.atexitTable := by
  rw [exec_world]

lemma runCalls_cons (c : Call) (cs : List Call) (w : World) :
    runCalls (c :: cs) w = runCalls cs (c.exec w).2 := rfl

lemma runCalls_trace (cs : List Call) (w : World) :
    (runCalls cs w).trace = w.trace ++ cs.map Call.record := by
  induction cs generalizing w with
  | nil => simp [runCalls]
  | cons c cs ih => rw [runCalls_cons, ih, exec_trace]; simp

lemma runCalls_atexitTable (cs : List Call) (w : World) :
    (runCalls cs w).atexitTable = w.atexitTable := by
  induction cs generalizing w with
  | nil => rfl
  | cons c cs ih => rw [runCalls_cons, ih, exec_atexitTable]

lemma logOutputRequests_records (cs : List Call) :
    logOutputRequests (cs.map Call.record) =
      cs.map (fun c => ("Razer " ++ c.name ++ " called.", LogLevel.Debug)) := by
  induction cs with
  | nil => rfl
  | cons c cs ih => simp [Call.record, logOutputRequests, ih]

lemma count_records (cs : List Call) :
    (cs.map Call.record).count LoggerCall.EndLogging = 0 := by
  induction cs with
  | nil => rfl
  | cons c cs ih => simp [Call.record, List.count_cons, ih]

lemma attach_world (h : HINSTANCE) (l : Addr) (p : String) (w : World) :
    (DllMain h DLL_PROCESS_ATTACH l p w).2 =
      { w with
        atexitTable := w.atexitTable ++ [ExitFn.cleanup]
        game := if _tcscmp p.toList "Overwatch".toList ≠ 0 then "overwatch" else w.game
        trace := w.trace ++ [.InitLogging "Log.txt", .SetLogLevel .Debug,
          .OutputLog "Attached to process." .Debug] } := by
  unfold DllMain
  rw [if_pos rfl]
  by_cases hc : _tcscmp p.toList "Overwatch".toList = 0
  · simp only [World.log, hc, ne_eq, not_true_eq_false, if_false, List.append_assoc,
      List.cons_append, List.nil_append]
  · simp only [World.log, hc, ne_eq, not_false_eq_true, if_true, List.append_assoc,
      List.cons_append, List.nil_append]

lemma detach_world (h : HINSTANCE) (l : Addr) (p : String) (w : World) :
    (DllMain h DLL_PROCESS_DETACH l p w).2 =
      { w with trace := w.trace ++ [.EndLogging, detachLine] } := by
  simp [DllMain, DLL_PROCESS_DETACH, DLL_PROCESS_ATTACH, World.log, cleanup, detachLine]

lemma step_flag (e : Event) (w : World) (hw : w.g_hasInitialised = true) :
    (e.step w).g_hasInitialised = true := by
  cases e with
  | call c => simp only [Event.step]; rw [exec_world]; cases c <;> simp [hw]
  | loader h r l p =>
    simp only [Event.step, DllMain]
    split
    · split <;> simpa [World.log] using hw
    · split
      · simpa [World.log, cleanup] using hw
      · exact hw

/-! ## The claims -/

/-- C1: each of the thirteen exported functions returns the result code `0`, for
every argument combination and every prior state of the shim (attached or not,
initialised or not); in particular `UnInit` with no prior `Init` returns `0`. -/
theorem entry_points_return_zero (c : Call) (w : World) (mem : Addr → Option Nat) :
    (c.exec w).1 = 0 ∧ (UnInit (initialWorld mem)).1 = 0 := by
  constructor
  · cases c <;> rfl
  · rfl

/-- C2: the initialization flag is false in the initial state, and it is true
in the state right after a call of `Init`, whatever the state before. -/
theorem init_sets_flag (mem : Addr → Option Nat) (w : World) :
    (initialWorld mem).g_hasInitialised = false ∧ (Init w).2.g_hasInitialised = true :=
  ⟨rfl, rfl⟩

/-- C3: once the initialization flag is true it stays true over every finite
sequence of entry-point calls and loader events (attach, detach, or any other
`DllMain` reason); `UnInit` only appends its log record. -/
theorem flag_stays_true (es : List Event) (w : World) (hw : w.g_hasInitialised = true) :
    (runEvents es w).g_hasInitialised = true ∧
      (UnInit w).2 = w.log (.OutputLog_s "Razer UnInit called." .Debug) := by
  refine ⟨?_, rfl⟩
  induction es generalizing w with
  | nil => exact hw
  | cons e es ih => exact ih (e.step w) (step_flag e w hw)

/-- Witness for C3: after `Init`, the flag survives `UnInit`, a detach, an
attach, a thread-attach reason and a `DeleteEffect` call. -/
theorem flag_stays_true_witness :
    (Init (initialWorld emptyMemory)).2.g_hasInitialised = true ∧
      (runEvents [.call .UnInit, .loader 0 DLL_PROCESS_DETACH 0 "game.exe",
          .loader 0 DLL_PROCESS_ATTACH 0 "Overwatch", .loader 0 2 0 "game.exe",
          .call (.DeleteEffect 5)]
        (Init (initialWorld emptyMemory)).2).g_hasInitialised = true :=
  ⟨rfl, (flag_stays_true _ _ rfl).1⟩

/-- C4 (evaluation at the failing input): for the host path
`C:\Windows\System32\notepad.exe`, which `_tcscmp` finds different from
`"Overwatch"`, the attach hook run on the initial state leaves the game
identifier equal to `"overwatch"`, not to the empty default. -/
theorem attach_labels_other_process :
    _tcscmp "C:\\Windows\\System32\\notepad.exe".toList "Overwatch".toList ≠ 0 ∧
      (DllMain 0 DLL_PROCESS_ATTACH 0 "C:\\Windows\\System32\\notepad.exe"
        (initialWorld emptyMemory)).2.game = "overwatch" := by
  decide

/-- C6: every call of an exported function issues exactly one logger request,
an `OutputLog_s` at `Debug` severity with the text `"Razer <Name> called."`; a
sequence of calls extends the trace by exactly one such record per call, in call
order, and these are the log-output requests made since the sequence began. -/
theorem each_call_logs_once (c : Call) (cs : List Call) (w : World) :
    (c.exec w).2.trace =
        w.trace ++ [.OutputLog_s ("Razer " ++ c.name ++ " called.") .Debug] ∧
      (runCalls cs w).trace =
        w.trace ++ cs.map
          (fun c => LoggerCall.OutputLog_s ("Razer " ++ c.name ++ " called.") .Debug) ∧
      logOutputRequests ((runCalls cs w).tracedSince w.trace.length) =
        cs.map (fun c => ("Razer " ++ c.name ++ " called.", LogLevel.Debug)) := by
  refine ⟨exec_trace c w, runCalls_trace cs w, ?_⟩
  rw [World.tracedSince, runCalls_trace, List.drop_left]
  exact logOutputRequests_records cs

/-- C7: the attach hook makes exactly the logger calls `InitLogging "Log.txt"`,
`SetLogLevel Debug`, `OutputLog "Attached to process."`, in this order, so its
only log-output request is the attach line; the only log-output request of the
detach hook is `"Detached from process."`. -/
theorem hooks_log_one_line (h : HINSTANCE) (l : Addr) (p : String) (w : World) :
    (DllMain h DLL_PROCESS_ATTACH l p w).2.trace =
        w.trace ++ [.InitLogging "Log.txt", .SetLogLevel .Debug,
          .OutputLog "Attached to process." .Debug] ∧
      logOutputRequests ((DllMain h DLL_PROCESS_ATTACH l p w).2.tracedSince w.trace.length) =
        [("Attached to process.", .Debug)] ∧
      logOutputRequests ((DllMain h DLL_PROCESS_DETACH l p w).2.tracedSince w.trace.length) =
        [("Detached from process.", .Debug)] := by
  refine ⟨?_, ?_, ?_⟩
  · rw [attach_world]
  · rw [World.tracedSince, attach_world]
    simp only [List.drop_left]
    rfl
  · rw [World.tracedSince, detach_world]
    simp only [List.drop_left]
    rfl

/-- C8: no exported function changes the game identifier, the host memory
(hence no effect-identifier output location and no device-info record) or the
exit-function table; the initialization flag is set by `Init` and left as it
was by the twelve others. -/
theorem entry_points_frame (c : Call) (w : World) :
    (c.exec w).2.game = w.game ∧
      (c.exec w).2.memory = w.memory ∧
      (c.exec w).2.atexitTable = w.atexitTable ∧
      (c.exec w).2.g_hasInitialised =
        (match c with
          | .Init => true
          | _ => w.g_hasInitialised) := by
  rw [exec_world]
  exact ⟨rfl, rfl, rfl, rfl⟩

/-- C9 (evaluation at the failing input): after an attach, the detach hook
makes exactly the logger calls `EndLogging`, `OutputLog_s "Detached from
process."`, in this order; the detach line does not come before `EndLogging`,
it is requested after the cleanup action has run. -/
theorem detach_line_not_first :
    (DllMain 0 DLL_PROCESS_DETACH 0 "C:\\Windows\\System32\\notepad.exe"
        (DllMain 0 DLL_PROCESS_ATTACH 0 "C:\\Windows\\System32\\notepad.exe"
          (initialWorld emptyMemory)).2).2.tracedSince 3 =
        [.EndLogging, .OutputLog_s "Detached from process." .Debug] ∧
      ¬ lineThenCleanup
        ((DllMain 0 DLL_PROCESS_DETACH 0 "C:\\Windows\\System32\\notepad.exe"
          (DllMain 0 DLL_PROCESS_ATTACH 0 "C:\\Windows\\System32\\notepad.exe"
            (initialWorld emptyMemory)).2).2.tracedSince 3) ∧
      ¬ lineThenCleanup
        ((DllMain 0 DLL_PROCESS_DETACH 0 "game.exe"
          (initialWorld emptyMemory)).2.tracedSince 0) := by
  decide

/-- C10: over attach, any sequence of entry-point calls, detach and process
exit, starting from the initial state, `EndLogging` is invoked exactly twice:
not by the attach hook (which registers `cleanup` as the only exit function),
not by any entry point, once by the detach hook and once at process exit. -/
theorem cleanup_runs_twice (mem : Addr → Option Nat) (h₁ h₂ : HINSTANCE) (l₁ l₂ : Addr)
    (p₁ p₂ : String) (cs : List Call) (c : Call) (w : World) :
    (DllMain h₁ DLL_PROCESS_ATTACH l₁ p₁ (initialWorld mem)).2.endLoggingCount = 0 ∧
      (DllMain h₁ DLL_PROCESS_ATTACH l₁ p₁ (initialWorld mem)).2.atexitTable = [.cleanup] ∧
      (c.exec w).2.endLoggingCount = w.endLoggingCount ∧
      (runCalls cs
        (DllMain h₁ DLL_PROCESS_ATTACH l₁ p₁ (initialWorld mem)).2).endLoggingCount = 0 ∧
      (DllMain h₂ DLL_PROCESS_DETACH l₂ p₂ (runCalls cs
        (DllMain h₁ DLL_PROCESS_ATTACH l₁ p₁ (initialWorld mem)).2)).2.endLoggingCount = 1 ∧
      (processExit (DllMain h₂ DLL_PROCESS_DETACH l₂ p₂ (runCalls cs
        (DllMain h₁ DLL_PROCESS_ATTACH l₁ p₁ (initialWorld mem)).2)).2).endLoggingCount
        = 2 := by
  have hrec : ∀ cs : List Call, List.count LoggerCall.EndLogging (cs.map Call.record) = 0 :=
    count_records
  refine ⟨?_, ?_, ?_, ?_, ?_, ?_⟩
  · rw [attach_world]; simp [World.endLoggingCount, initialWorld]
  · rw [attach_world]; simp [initialWorld]
  · rw [World.endLoggingCount, exec_trace]
    simp [World.endLoggingCount, Call.record]
  · rw [World.endLoggingCount, runCalls_trace, attach_world]
    simp [initialWorld, hrec]
  · rw [detach_world, World.endLoggingCount]
    simp only [runCalls_trace]
    rw [attach_world]
    simp [initialWorld, hrec, detachLine]
  · rw [processExit, detach_world]
    simp only [runCalls_atexitTable]
    rw [attach_world]
    simp only [initialWorld, List.nil_append, List.reverse_cons, List.reverse_nil,
      List.foldl_cons, List.foldl_nil, ExitFn.run, cleanup, World.log, World.endLoggingCount,
      runCalls_trace]
    simp [hrec, detachLine]

end Razer2Artemis
